import Mathlib

/-!
Shallow embedding of the farm-chain-service repository
(src/models.py and src/app.py) and proofs of its specified properties.

Python floats (`timestamp`, `agreed_price`, `amount`) are modelled as
rationals; Python truthiness of a string is `s ≠ ""` and of a number is
`q ≠ 0`; an absent JSON field is `Option.none`.  The SQLAlchemy session is
modelled as an explicit `Store` of two lists, with the `unique=True`
column constraints of models.py enforced by the insert operations: a
violating commit raises, which we record as an `unhandled` outcome since
no handler catches it.
-/

namespace FarmChain

/-- models.py, class TraceabilityRecord: the business columns; the surrogate
`id` primary key is the list position and is never exposed. -/
structure TraceabilityRecord where
  traceability_hash : String
  product_id : String
  farmer_id : String
  aggregation_center_id : String
  timestamp : ℚ
deriving Repr, DecidableEq

/-- models.py, class Contract: the business columns. -/
structure Contract where
  contract_id : String
  buyer_id : String
  seller_id : String
  product_id : String
  agreed_price : ℚ
  delivery_date : String
  status : String
deriving Repr, DecidableEq

/-- The persistent database: the two tables, rows in insertion order. -/
structure Store where
  records : List TraceabilityRecord
  contracts : List Contract
deriving Repr, DecidableEq

/-- Insert of a TraceabilityRecord (`db.session.add` + `commit`).  models.py
declares `traceability_hash` with `unique=True`, so committing a duplicate
raises an integrity error; the transaction is rolled back, leaving the store
as it was. -/
def insertRecord (s : Store) (r : TraceabilityRecord) : Except String Store :=
  if s.records.any (fun x => x.traceability_hash == r.traceability_hash) then
    .error "UNIQUE constraint failed: traceability_records.traceability_hash"
  else
    .ok { s with records := s.records ++ [r] }

/-- Insert of a Contract (`db.session.add` + `commit`); `contract_id` is
`unique=True` in models.py. -/
def insertContract (s : Store) (c : Contract) : Except String Store :=
  if s.contracts.any (fun x => x.contract_id == c.contract_id) then
    .error "UNIQUE constraint failed: contracts.contract_id"
  else
    .ok { s with contracts := s.contracts ++ [c] }

/-- Mutating `contract.status = status` on the row returned by
`query.filter_by(contract_id=cid).first()`: the first matching row gets the
new status, every other row is untouched. -/
def setStatusFirst : List Contract → String → String → List Contract
  | [], _, _ => []
  | c :: cs, cid, st =>
    if c.contract_id == cid then { c with status := st } :: cs
    else c :: setStatusFirst cs cid st

/-- Python truthiness of an optional string field: `None` and `""` are falsy. -/
def truthyStr : Option String → Bool
  | none => false
  | some s => s != ""

/-- Python truthiness of an optional numeric field: `None` and `0` are falsy. -/
def truthyNum : Option ℚ → Bool
  | none => false
  | some q => q != 0

/-- Behaviour of the external auth service for one request
(`requests.post(AUTH_SERVICE_VALIDATE_URL, ...)` in app.py): either the call
raises, or it returns a status code and a JSON body whose optional
`permissions` key holds a list of permission strings. -/
inductive ServiceOutcome where
  | raises (msg : String)
  | responds (statusCode : Nat) (permissionsField : Option (List String))
deriving Repr, DecidableEq

/-- The parts of the request environment that `validate_token` reads: the
`Authorization` header (absent, or present with some value) and what the
external validation service would do if called. -/
structure AuthEnv where
  authorizationHeader : Option String
  service : ServiceOutcome
deriving Repr, DecidableEq

/-- Result of `validate_token` (app.py:79-93): an error message, or the
claims object (we keep its optional `permissions` field). -/
inductive TokenResult where
  | err (msg : String)
  | claims (permissionsField : Option (List String))
deriving Repr, DecidableEq

/-- app.py `validate_token`: returns the `(is_valid, user_or_error)` pair
(as a `TokenResult`) together with whether an outbound call to the external
validation service was made. -/
def validate_token (env : AuthEnv) : TokenResult × Bool :=
  match env.authorizationHeader with
  | none => (.err "Token is missing", false)
  | some token =>
    if token == "" then (.err "Token is missing", false)
    else
      match env.service with
      | .raises msg => (.err ("Token validation failed: " ++ msg), true)
      | .responds code perms =>
        if code != 200 then (.err "Invalid token", true)
        else (.claims perms, true)

/-- A JSON value appearing in a response body. -/
inductive Jval where
  | str (s : String)
  | num (q : ℚ)
deriving Repr, DecidableEq

/-- Outcome of a request: a normal response with a JSON object body
(field order as the source builds it), an `api.abort(status, message)`,
or an exception the handler never catches (Flask turns it into an
unstructured 500). -/
inductive HResult where
  | response (status : Nat) (body : List (String × Jval))
  | abort (status : Nat) (message : String)
  | unhandled (msg : String)
deriving Repr, DecidableEq

/-- app.py `has_permission(required)` decorator: validate the token, abort
401 on failure, abort 403 when `required` is not among
`user.get("permissions", [])`, otherwise run the wrapped handler.  The
returned `Bool` is whether the outbound validation call happened. -/
def has_permission (required : String) (env : AuthEnv) (s : Store)
    (handler : Store → HResult × Store) : (HResult × Store) × Bool :=
  let (tok, called) := validate_token env
  match tok with
  | .err msg => ((.abort 401 msg, s), called)
  | .claims perms =>
    let user_permissions := perms.getD []
    if required ∈ user_permissions then (handler s, called)
    else ((.abort 403 "Access denied: insufficient permission", s), called)

/-- Request body of POST /traceability/ as the handler reads it
(`data.get(...)`, so each field is optional). -/
structure TraceabilityPostBody where
  product_id : Option String
  farmer_id : Option String
  aggregation_center_id : Option String
deriving Repr, DecidableEq

/-- Body of `TraceabilityResource.post` (app.py:122-148) after the
decorator: validate truthiness of the three fields, then insert a row with
the generated hash (`uuid.uuid4()`, passed in as `freshHash`) and the
current time (`now`), and return the hash and timestamp with 201. -/
def traceability_post_handler (body : TraceabilityPostBody)
    (freshHash : String) (now : ℚ) (s : Store) : HResult × Store :=
  if ¬ (truthyStr body.product_id && truthyStr body.farmer_id
        && truthyStr body.aggregation_center_id) then
    (.abort 400 "Missing required fields", s)
  else
    let record : TraceabilityRecord :=
      { traceability_hash := freshHash
        product_id := body.product_id.getD ""
        farmer_id := body.farmer_id.getD ""
        aggregation_center_id := body.aggregation_center_id.getD ""
        timestamp := now }
    match insertRecord s record with
    | .error e => (.unhandled e, s)
    | .ok s' =>
      (.response 201 [("traceability_hash", .str freshHash),
                      ("timestamp", .num now)], s')

/-- POST /traceability/ with its `@has_permission("CREATE_RECORD")` guard. -/
def traceability_post (env : AuthEnv) (body : TraceabilityPostBody)
    (freshHash : String) (now : ℚ) (s : Store) : (HResult × Store) × Bool :=
  has_permission "CREATE_RECORD" env s (traceability_post_handler body freshHash now)

/-- Body of `TraceabilityDetailResource.get` (app.py:156-167): look up the
hash, 404 when absent, otherwise return exactly the four business fields. -/
def traceability_get_handler (traceability_hash : String) (s : Store) :
    HResult × Store :=
  match s.records.find? (fun r => r.traceability_hash == traceability_hash) with
  | none => (.abort 404 "Traceability record not found", s)
  | some record =>
    (.response 200 [("product_id", .str record.product_id),
                    ("farmer_id", .str record.farmer_id),
                    ("aggregation_center_id", .str record.aggregation_center_id),
                    ("timestamp", .num record.timestamp)], s)

/-- GET /traceability/\<hash\> with its `@has_permission("VIEW_RECORD")` guard. -/
def traceability_get (env : AuthEnv) (traceability_hash : String) (s : Store) :
    (HResult × Store) × Bool :=
  has_permission "VIEW_RECORD" env s (traceability_get_handler traceability_hash)

/-- Request body of POST /smart-contract/ as the handler reads it. -/
structure ContractPostBody where
  buyer_id : Option String
  seller_id : Option String
  product_id : Option String
  agreed_price : Option ℚ
  delivery_date : Option String
deriving Repr, DecidableEq

/-- Body of `SmartContractResource.post` (app.py:176-202): `all([...])`
truthiness check over the five fields, then insert a Contract whose status
is the models.py default "Pending", and return id and status with 201. -/
def smart_contract_post_handler (body : ContractPostBody)
    (freshId : String) (s : Store) : HResult × Store :=
  if ¬ (truthyStr body.buyer_id && truthyStr body.seller_id
        && truthyStr body.product_id && truthyNum body.agreed_price
        && truthyStr body.delivery_date) then
    (.abort 400 "Missing required fields", s)
  else
    let contract : Contract :=
      { contract_id := freshId
        buyer_id := body.buyer_id.getD ""
        seller_id := body.seller_id.getD ""
        product_id := body.product_id.getD ""
        agreed_price := body.agreed_price.getD 0
        delivery_date := body.delivery_date.getD ""
        status := "Pending" }
    match insertContract s contract with
    | .error e => (.unhandled e, s)
    | .ok s' =>
      (.response 201 [("contract_id", .str freshId),
                      ("status", .str "Pending")], s')

/-- POST /smart-contract/ with its `@has_permission("CREATE_CONTRACT")` guard. -/
def smart_contract_post (env : AuthEnv) (body : ContractPostBody)
    (freshId : String) (s : Store) : (HResult × Store) × Bool :=
  has_permission "CREATE_CONTRACT" env s (smart_contract_post_handler body freshId)

/-- The fixed status enumeration of `SmartContractDetailResource.patch`. -/
def validStatuses : List String := ["Pending", "Completed", "Cancelled"]

/-- Body of `SmartContractDetailResource.patch` (app.py:210-224): 404 when
the contract is unknown, 400 when `data.get('status')` is not one of the
three enumerated values (in particular when it is absent), otherwise set
the status on the found row and return 200. -/
def smart_contract_patch_handler (contract_id : String)
    (bodyStatus : Option String) (s : Store) : HResult × Store :=
  match s.contracts.find? (fun c => c.contract_id == contract_id) with
  | none => (.abort 404 "Contract not found", s)
  | some _ =>
    match bodyStatus with
    | none => (.abort 400 "Invalid status", s)
    | some st =>
      if st ∈ validStatuses then
        (.response 200 [("contract_id", .str contract_id), ("status", .str st)],
         { s with contracts := setStatusFirst s.contracts contract_id st })
      else (.abort 400 "Invalid status", s)

/-- PATCH /smart-contract/\<id\> with its `@has_permission("UPDATE_CONTRACT")`
guard. -/
def smart_contract_patch (env : AuthEnv) (contract_id : String)
    (bodyStatus : Option String) (s : Store) : (HResult × Store) × Bool :=
  has_permission "UPDATE_CONTRACT" env s (smart_contract_patch_handler contract_id bodyStatus)

/-- Request body of the two payment stubs as the handlers read it. -/
structure PaymentBody where
  product_id : Option String
  retailer_id : Option String
  amount : Option ℚ
deriving Repr, DecidableEq

/-- Body of `LockPaymentResource.post` (app.py:236-248): truthiness check of
the three fields, then a synthesized response with a fresh `uuid.uuid4()`
contract id; the database is never touched. -/
def lock_payment_post_handler (body : PaymentBody) (freshId : String)
    (s : Store) : HResult × Store :=
  if ¬ (truthyStr body.product_id && truthyStr body.retailer_id
        && truthyNum body.amount) then
    (.abort 400 "Missing required fields", s)
  else
    (.response 201 [("contract_id", .str freshId),
                    ("status", .str "Payment Locked")], s)

/-- POST /smart-contract/lock-payment with its
`@has_permission("LOCK_PAYMENT")` guard. -/
def lock_payment_post (env : AuthEnv) (body : PaymentBody) (freshId : String)
    (s : Store) : (HResult × Store) × Bool :=
  has_permission "LOCK_PAYMENT" env s (lock_payment_post_handler body freshId)

/-- Body of `ReleasePaymentResource.post` (app.py:260-271): truthiness check
of the three fields, then a canned response; the database is never touched. -/
def release_payment_post_handler (body : PaymentBody) (s : Store) :
    HResult × Store :=
  if ¬ (truthyStr body.product_id && truthyStr body.retailer_id
        && truthyNum body.amount) then
    (.abort 400 "Missing required fields", s)
  else
    (.response 201 [("status", .str "Payment Released")], s)

/-- POST /smart-contract/release-payment with its
`@has_permission("RELEASE_PAYMENT")` guard. -/
def release_payment_post (env : AuthEnv) (body : PaymentBody) (s : Store) :
    (HResult × Store) × Bool :=
  has_permission "RELEASE_PAYMENT" env s (release_payment_post_handler body)

/-! ### Helper lemmas about the auth guard -/

/-- When the token validates and the claims contain the required permission,
the guard runs the wrapped handler unchanged. -/
theorem has_permission_pass {required : String} {env : AuthEnv}
    {pf : Option (List String)} {called : Bool}
    (hv : validate_token env = (.claims pf, called))
    (hmem : required ∈ pf.getD []) (s : Store)
    (handler : Store → HResult × Store) :
    has_permission required env s handler = (handler s, called) := by
  simp [has_permission, hv, hmem]

/-- When the token validates but the claims lack the required permission,
the guard aborts with 403 and the store is untouched. -/
theorem has_permission_denied {required : String} {env : AuthEnv}
    {pf : Option (List String)} {called : Bool}
    (hv : validate_token env = (.claims pf, called))
    (hmem : required ∉ pf.getD []) (s : Store)
    (handler : Store → HResult × Store) :
    has_permission required env s handler
      = ((.abort 403 "Access denied: insufficient permission", s), called) := by
  simp [has_permission, hv, hmem]

/-- When the Authorization header is absent, the guard aborts with 401,
makes no outbound call, and the store is untouched. -/
theorem has_permission_no_header {required : String} {env : AuthEnv}
    (hv : env.authorizationHeader = none) (s : Store)
    (handler : Store → HResult × Store) :
    has_permission required env s handler
      = ((.abort 401 "Token is missing", s), false) := by
  simp [has_permission, validate_token, hv]

/-- Whatever the auth outcome, a guarded endpoint either returns exactly what
the wrapped handler returns, or aborts leaving the store untouched. -/
theorem has_permission_cases (required : String) (env : AuthEnv) (s : Store)
    (handler : Store → HResult × Store) :
    (has_permission required env s handler).1 = handler s ∨
    (has_permission required env s handler).1.2 = s := by
  unfold has_permission
  rcases hv : validate_token env with ⟨tok, called⟩
  cases tok with
  | err msg => right; rfl
  | claims pf =>
    by_cases hmem : required ∈ pf.getD []
    · left; simp [hmem]
    · right; simp [hmem]

/-! ### Claim theorems -/

/-- C2: for every protected endpoint, when the token validates but the
returned permissions lack the handler's required permission, the response is
the 403 abort and the store is returned unchanged. -/
theorem claim2_insufficient_permission_403 (env : AuthEnv)
    (pf : Option (List String)) (called : Bool)
    (hv : validate_token env = (.claims pf, called)) (s : Store) :
    (∀ body freshHash now, "CREATE_RECORD" ∉ pf.getD [] →
      traceability_post env body freshHash now s
        = ((.abort 403 "Access denied: insufficient permission", s), called))
  ∧ (∀ h, "VIEW_RECORD" ∉ pf.getD [] →
      traceability_get env h s
        = ((.abort 403 "Access denied: insufficient permission", s), called))
  ∧ (∀ body freshId, "CREATE_CONTRACT" ∉ pf.getD [] →
      smart_contract_post env body freshId s
        = ((.abort 403 "Access denied: insufficient permission", s), called))
  ∧ (∀ cid st, "UPDATE_CONTRACT" ∉ pf.getD [] →
      smart_contract_patch env cid st s
        = ((.abort 403 "Access denied: insufficient permission", s), called))
  ∧ (∀ body freshId, "LOCK_PAYMENT" ∉ pf.getD [] →
      lock_payment_post env body freshId s
        = ((.abort 403 "Access denied: insufficient permission", s), called))
  ∧ (∀ body, "RELEASE_PAYMENT" ∉ pf.getD [] →
      release_payment_post env body s
        = ((.abort 403 "Access denied: insufficient permission", s), called)) :=
  ⟨fun _ _ _ hm => has_permission_denied hv hm s _,
   fun _ hm => has_permission_denied hv hm s _,
   fun _ _ hm => has_permission_denied hv hm s _,
   fun _ _ hm => has_permission_denied hv hm s _,
   fun _ _ hm => has_permission_denied hv hm s _,
   fun _ hm => has_permission_denied hv hm s _⟩

/-- Closed witness for C2: a token carrying only the permission OTHER is
denied with 403 on the create-traceability endpoint and the store is
unchanged. -/
theorem claim2_insufficient_permission_403_witness :
    traceability_post ⟨some "Bearer t", .responds 200 (some ["OTHER"])⟩
      ⟨some "P1", some "F1", some "A1"⟩ "h1" 5 ⟨[], []⟩
      = ((.abort 403 "Access denied: insufficient permission", ⟨[], []⟩), true) :=
  (claim2_insufficient_permission_403 ⟨some "Bearer t", .responds 200 (some ["OTHER"])⟩
    (some ["OTHER"]) true rfl ⟨[], []⟩).1
    ⟨some "P1", some "F1", some "A1"⟩ "h1" 5 (by decide)

/-- C3: for every protected endpoint, a request with no Authorization header
is answered with the 401 abort, the store is unchanged, and no outbound call
to the validation service is made (the final `false`). -/
theorem claim3_no_header_401_no_call (env : AuthEnv)
    (hv : env.authorizationHeader = none) (s : Store) :
    (∀ body freshHash now, traceability_post env body freshHash now s
        = ((.abort 401 "Token is missing", s), false))
  ∧ (∀ h, traceability_get env h s = ((.abort 401 "Token is missing", s), false))
  ∧ (∀ body freshId, smart_contract_post env body freshId s
        = ((.abort 401 "Token is missing", s), false))
  ∧ (∀ cid st, smart_contract_patch env cid st s
        = ((.abort 401 "Token is missing", s), false))
  ∧ (∀ body freshId, lock_payment_post env body freshId s
        = ((.abort 401 "Token is missing", s), false))
  ∧ (∀ body, release_payment_post env body s
        = ((.abort 401 "Token is missing", s), false)) :=
  ⟨fun _ _ _ => has_permission_no_header hv s _,
   fun _ => has_permission_no_header hv s _,
   fun _ _ => has_permission_no_header hv s _,
   fun _ _ => has_permission_no_header hv s _,
   fun _ _ => has_permission_no_header hv s _,
   fun _ => has_permission_no_header hv s _⟩

/-- Closed witness for C3: a headerless request to the get-traceability
endpoint is answered 401 with no outbound call. -/
theorem claim3_no_header_401_no_call_witness :
    traceability_get ⟨none, .responds 200 (some ["VIEW_RECORD"])⟩ "h1" ⟨[], []⟩
      = ((.abort 401 "Token is missing", ⟨[], []⟩), false) :=
  (claim3_no_header_401_no_call ⟨none, .responds 200 (some ["VIEW_RECORD"])⟩
    rfl ⟨[], []⟩).2.1 "h1"

/-- C4: an authorized status update on an existing contract whose requested
status is outside the enumeration (in particular when the field is absent)
aborts with 400 and returns the store unchanged. -/
theorem claim4_invalid_status_400 (env : AuthEnv) (pf : Option (List String))
    (called : Bool) (hv : validate_token env = (.claims pf, called))
    (hperm : "UPDATE_CONTRACT" ∈ pf.getD []) (s : Store) (cid : String)
    (c : Contract) (hfind : s.contracts.find? (fun x => x.contract_id == cid) = some c)
    (st : Option String) (hst : ∀ v, st = some v → v ∉ validStatuses) :
    smart_contract_patch env cid st s = ((.abort 400 "Invalid status", s), called) := by
  rw [smart_contract_patch, has_permission_pass hv hperm]
  unfold smart_contract_patch_handler
  rw [hfind]
  cases st with
  | none => rfl
  | some v => simp [hst v rfl]

/-- Closed witness for C4: updating an existing contract to the status Bogus
is rejected with 400 and the store, including the stored status, is
unchanged. -/
theorem claim4_invalid_status_400_witness :
    smart_contract_patch ⟨some "t", .responds 200 (some ["UPDATE_CONTRACT"])⟩
      "c1" (some "Bogus") ⟨[], [⟨"c1", "B", "S", "P", 3, "D", "Pending"⟩]⟩
      = ((.abort 400 "Invalid status",
          ⟨[], [⟨"c1", "B", "S", "P", 3, "D", "Pending"⟩]⟩), true) :=
  claim4_invalid_status_400 ⟨some "t", .responds 200 (some ["UPDATE_CONTRACT"])⟩
    (some ["UPDATE_CONTRACT"]) true rfl (by decide)
    ⟨[], [⟨"c1", "B", "S", "P", 3, "D", "Pending"⟩]⟩ "c1"
    ⟨"c1", "B", "S", "P", 3, "D", "Pending"⟩ rfl (some "Bogus")
    (fun v hv => by simp at hv; subst hv; decide)

/-- C5: an authorized create-traceability request with any of the three
required fields missing or falsy aborts with 400 and returns the store
unchanged — no write is performed. -/
theorem claim5_missing_field_400 (env : AuthEnv) (pf : Option (List String))
    (called : Bool) (hv : validate_token env = (.claims pf, called))
    (hperm : "CREATE_RECORD" ∈ pf.getD []) (s : Store)
    (body : TraceabilityPostBody) (freshHash : String) (now : ℚ)
    (hmiss : truthyStr body.product_id = false ∨ truthyStr body.farmer_id = false
             ∨ truthyStr body.aggregation_center_id = false) :
    traceability_post env body freshHash now s
      = ((.abort 400 "Missing required fields", s), called) := by
  rw [traceability_post, has_permission_pass hv hperm]
  unfold traceability_post_handler
  rcases hmiss with h | h | h <;> simp [h]

/-- Closed witness for C5: an authorized create with `farmer_id` absent is
rejected with 400 and the store stays empty. -/
theorem claim5_missing_field_400_witness :
    traceability_post ⟨some "t", .responds 200 (some ["CREATE_RECORD"])⟩
      ⟨some "P1", none, some "A1"⟩ "h1" 5 ⟨[], []⟩
      = ((.abort 400 "Missing required fields", ⟨[], []⟩), true) :=
  claim5_missing_field_400 ⟨some "t", .responds 200 (some ["CREATE_RECORD"])⟩
    (some ["CREATE_RECORD"]) true rfl (by decide) ⟨[], []⟩
    ⟨some "P1", none, some "A1"⟩ "h1" 5 (Or.inr (Or.inl rfl))

/-- C1: an authorized create with the three fields non-empty and a fresh
generated hash answers 201 with the hash and timestamp, and an authorized
get by that hash on the resulting store returns a body holding exactly the
four business fields with the created values.  The generated uuid is
assumed not to collide with a stored hash (the collision case is the
subject of C7). -/
theorem claim1_create_then_get_roundtrip
    (envC envG : AuthEnv) (pfC pfG : Option (List String)) (cC cG : Bool)
    (hvC : validate_token envC = (.claims pfC, cC))
    (hpC : "CREATE_RECORD" ∈ pfC.getD [])
    (hvG : validate_token envG = (.claims pfG, cG))
    (hpG : "VIEW_RECORD" ∈ pfG.getD [])
    (body : TraceabilityPostBody) (freshHash : String) (now : ℚ) (s : Store)
    (hp : truthyStr body.product_id = true)
    (hf : truthyStr body.farmer_id = true)
    (ha : truthyStr body.aggregation_center_id = true)
    (hfresh : ∀ r ∈ s.records, r.traceability_hash ≠ freshHash) :
    (traceability_post envC body freshHash now s).1.1
      = .response 201 [("traceability_hash", .str freshHash), ("timestamp", .num now)]
    ∧ (traceability_get envG freshHash
        (traceability_post envC body freshHash now s).1.2).1.1
      = .response 200 [("product_id", .str (body.product_id.getD "")),
                       ("farmer_id", .str (body.farmer_id.getD "")),
                       ("aggregation_center_id", .str (body.aggregation_center_id.getD "")),
                       ("timestamp", .num now)] := by
  have hany : s.records.any (fun x => x.traceability_hash == freshHash) = false := by
    rw [← Bool.not_eq_true, List.any_eq_true]
    rintro ⟨r, hr, hb⟩
    exact hfresh r hr (by simpa using hb)
  have hpost : traceability_post envC body freshHash now s
      = ((.response 201 [("traceability_hash", .str freshHash), ("timestamp", .num now)],
          { s with records := s.records ++
            [{ traceability_hash := freshHash
               product_id := body.product_id.getD ""
               farmer_id := body.farmer_id.getD ""
               aggregation_center_id := body.aggregation_center_id.getD ""
               timestamp := now }] }), cC) := by
    rw [traceability_post, has_permission_pass hvC hpC]
    simp [traceability_post_handler, hp, hf, ha, insertRecord, hany]
  have hnone : s.records.find? (fun r => r.traceability_hash == freshHash) = none :=
    List.find?_eq_none.mpr (fun r hr => by simpa using hfresh r hr)
  refine ⟨by rw [hpost], ?_⟩
  rw [hpost]
  rw [traceability_get, has_permission_pass hvG hpG]
  simp [traceability_get_handler, List.find?_append, hnone]

/-- Closed witness for C1: the spec's example round trip with P1, F1, A1. -/
theorem claim1_create_then_get_roundtrip_witness :
    (traceability_post ⟨some "t", .responds 200 (some ["CREATE_RECORD"])⟩
        ⟨some "P1", some "F1", some "A1"⟩ "h1" 5 ⟨[], []⟩).1.1
      = .response 201 [("traceability_hash", .str "h1"), ("timestamp", .num 5)]
    ∧ (traceability_get ⟨some "t2", .responds 200 (some ["VIEW_RECORD"])⟩ "h1"
        (traceability_post ⟨some "t", .responds 200 (some ["CREATE_RECORD"])⟩
          ⟨some "P1", some "F1", some "A1"⟩ "h1" 5 ⟨[], []⟩).1.2).1.1
      = .response 200 [("product_id", .str "P1"), ("farmer_id", .str "F1"),
                       ("aggregation_center_id", .str "A1"), ("timestamp", .num 5)] :=
  claim1_create_then_get_roundtrip
    ⟨some "t", .responds 200 (some ["CREATE_RECORD"])⟩
    ⟨some "t2", .responds 200 (some ["VIEW_RECORD"])⟩
    (some ["CREATE_RECORD"]) (some ["VIEW_RECORD"]) true true rfl (by decide)
    rfl (by decide) ⟨some "P1", some "F1", some "A1"⟩ "h1" 5 ⟨[], []⟩
    rfl rfl rfl (by simp)

/-! ### The contract-status invariant -/

/-- Every contract stored has one of the three enumerated statuses. -/
def contractStatusesValid (s : Store) : Prop :=
  ∀ c ∈ s.contracts, c.status ∈ validStatuses

theorem contractStatusesValid_of_eq {s s' : Store}
    (h : s'.contracts = s.contracts) (hs : contractStatusesValid s) :
    contractStatusesValid s' :=
  fun c hc => hs c (h ▸ hc)

/-- A guarded endpoint's store is the wrapped handler's store or the input
store (when the guard aborts). -/
theorem guarded_store (required : String) (env : AuthEnv) (s : Store)
    (handler : Store → HResult × Store) :
    (has_permission required env s handler).1.2 = (handler s).2 ∨
    (has_permission required env s handler).1.2 = s := by
  rcases has_permission_cases required env s handler with h | h
  · left; rw [h]
  · right; exact h

/-- Setting the first matching contract's status to an enumerated value
keeps every stored status enumerated. -/
theorem setStatusFirst_mem_status {cs : List Contract} {cid st : String}
    (hcs : ∀ c ∈ cs, c.status ∈ validStatuses) (hst : st ∈ validStatuses) :
    ∀ c ∈ setStatusFirst cs cid st, c.status ∈ validStatuses := by
  induction cs with
  | nil => intro c hc; simp [setStatusFirst] at hc
  | cons a as ih =>
    intro c hc
    rw [setStatusFirst] at hc
    by_cases hid : (a.contract_id == cid) = true
    · rw [if_pos hid] at hc
      rcases List.mem_cons.mp hc with rfl | hmem
      · exact hst
      · exact hcs c (List.mem_cons_of_mem a hmem)
    · rw [if_neg hid] at hc
      rcases List.mem_cons.mp hc with heq | hmem
      · rw [heq]; exact hcs a (List.mem_cons_self a as)
      · exact ih (fun d hd => hcs d (List.mem_cons_of_mem a hd)) c hmem

theorem traceability_post_handler_contracts (body : TraceabilityPostBody)
    (freshHash : String) (now : ℚ) (s : Store) :
    ((traceability_post_handler body freshHash now s).2).contracts = s.contracts := by
  by_cases hc : (truthyStr body.product_id && truthyStr body.farmer_id
        && truthyStr body.aggregation_center_id) = true
  · by_cases hany : (s.records.any fun x => x.traceability_hash == freshHash) = true
    · simp [traceability_post_handler, insertRecord, hc, hany]
    · simp [traceability_post_handler, insertRecord, hc, hany]
  · simp [traceability_post_handler, hc]

theorem traceability_get_handler_store (h : String) (s : Store) :
    (traceability_get_handler h s).2 = s := by
  unfold traceability_get_handler
  split <;> rfl

theorem smart_contract_post_handler_contracts (body : ContractPostBody)
    (freshId : String) (s : Store) :
    ((smart_contract_post_handler body freshId s).2).contracts = s.contracts ∨
    ∃ c, ((smart_contract_post_handler body freshId s).2).contracts
           = s.contracts ++ [c] ∧ c.status = "Pending" := by
  by_cases hc : (truthyStr body.buyer_id && truthyStr body.seller_id
        && truthyStr body.product_id && truthyNum body.agreed_price
        && truthyStr body.delivery_date) = true
  · by_cases hany : (s.contracts.any fun x => x.contract_id == freshId) = true
    · left; simp [smart_contract_post_handler, insertContract, hc, hany]
    · right
      exact ⟨{ contract_id := freshId, buyer_id := body.buyer_id.getD ""
               seller_id := body.seller_id.getD ""
               product_id := body.product_id.getD ""
               agreed_price := body.agreed_price.getD 0
               delivery_date := body.delivery_date.getD ""
               status := "Pending" },
             by simp [smart_contract_post_handler, insertContract, hc, hany], rfl⟩
  · left; simp [smart_contract_post_handler, hc]

theorem smart_contract_patch_handler_valid (cid : String) (st : Option String)
    (s : Store) (hs : contractStatusesValid s) :
    contractStatusesValid ((smart_contract_patch_handler cid st s).2) := by
  cases hf : s.contracts.find? (fun x => x.contract_id == cid) with
  | none => simpa [smart_contract_patch_handler, hf] using hs
  | some c =>
    cases st with
    | none => simpa [smart_contract_patch_handler, hf] using hs
    | some v =>
      by_cases hv : v ∈ validStatuses
      · have hset : contractStatusesValid
            { s with contracts := setStatusFirst s.contracts cid v } :=
          setStatusFirst_mem_status hs hv
        simpa [smart_contract_patch_handler, hf, hv] using hset
      · simpa [smart_contract_patch_handler, hf, hv] using hs

theorem lock_payment_post_handler_store (body : PaymentBody) (freshId : String)
    (s : Store) : (lock_payment_post_handler body freshId s).2 = s := by
  unfold lock_payment_post_handler
  split <;> rfl

theorem release_payment_post_handler_store (body : PaymentBody) (s : Store) :
    (release_payment_post_handler body s).2 = s := by
  unfold release_payment_post_handler
  split <;> rfl

/-- C6: every operation preserves the invariant that each stored contract's
status is one of Pending, Completed, Cancelled; contract creation only ever
appends a contract whose status is the default Pending; and no endpoint
other than the two smart-contract endpoints touches the contracts table at
all (the payment stubs and the reads return the store unchanged). -/
theorem claim6_status_invariant (env : AuthEnv) (s : Store)
    (hs : contractStatusesValid s) :
    (∀ body freshHash now,
       (traceability_post env body freshHash now s).1.2.contracts = s.contracts
       ∧ contractStatusesValid (traceability_post env body freshHash now s).1.2)
  ∧ (∀ h, (traceability_get env h s).1.2 = s)
  ∧ (∀ body freshId,
       ((smart_contract_post env body freshId s).1.2.contracts = s.contracts
        ∨ ∃ c, (smart_contract_post env body freshId s).1.2.contracts
                 = s.contracts ++ [c] ∧ c.status = "Pending")
       ∧ contractStatusesValid (smart_contract_post env body freshId s).1.2)
  ∧ (∀ cid st, contractStatusesValid (smart_contract_patch env cid st s).1.2)
  ∧ (∀ body freshId, (lock_payment_post env body freshId s).1.2 = s)
  ∧ (∀ body, (release_payment_post env body s).1.2 = s) := by
  refine ⟨?_, ?_, ?_, ?_, ?_, ?_⟩
  · intro body freshHash now
    rw [traceability_post]
    rcases guarded_store "CREATE_RECORD" env s
      (traceability_post_handler body freshHash now) with hc | hc <;> rw [hc]
    · have h := traceability_post_handler_contracts body freshHash now s
      exact ⟨h, contractStatusesValid_of_eq h hs⟩
    · exact ⟨rfl, hs⟩
  · intro h
    rw [traceability_get]
    rcases guarded_store "VIEW_RECORD" env s (traceability_get_handler h)
      with hc | hc <;> rw [hc]
    · exact traceability_get_handler_store h s
  · intro body freshId
    rw [smart_contract_post]
    rcases guarded_store "CREATE_CONTRACT" env s
      (smart_contract_post_handler body freshId) with hc | hc <;> rw [hc]
    · rcases smart_contract_post_handler_contracts body freshId s with h | ⟨c, h, hst⟩
      · exact ⟨Or.inl h, contractStatusesValid_of_eq h hs⟩
      · refine ⟨Or.inr ⟨c, h, hst⟩, fun d hd => ?_⟩
        rw [h] at hd
        rcases List.mem_append.mp hd with hmem | hmem
        · exact hs d hmem
        · rw [List.mem_singleton.mp hmem, hst]
          exact List.mem_cons_self "Pending" _
    · exact ⟨Or.inl rfl, hs⟩
  · intro cid st
    rw [smart_contract_patch]
    rcases guarded_store "UPDATE_CONTRACT" env s
      (smart_contract_patch_handler cid st) with hc | hc <;> rw [hc]
    · exact smart_contract_patch_handler_valid cid st s hs
    · exact hs
  · intro body freshId
    rw [lock_payment_post]
    rcases guarded_store "LOCK_PAYMENT" env s
      (lock_payment_post_handler body freshId) with hc | hc <;> rw [hc]
    · exact lock_payment_post_handler_store body freshId s
  · intro body
    rw [release_payment_post]
    rcases guarded_store "RELEASE_PAYMENT" env s
      (release_payment_post_handler body) with hc | hc <;> rw [hc]
    · exact release_payment_post_handler_store body s

/-- Closed witness for C6: an authorized status update to Completed keeps
every stored status inside the enumeration. -/
theorem claim6_status_invariant_witness :
    contractStatusesValid (smart_contract_patch
      ⟨some "t", .responds 200 (some ["UPDATE_CONTRACT"])⟩ "c1" (some "Completed")
      ⟨[], [⟨"c1", "B", "S", "P", 3, "D", "Pending"⟩]⟩).1.2 :=
  (claim6_status_invariant ⟨some "t", .responds 200 (some ["UPDATE_CONTRACT"])⟩
    ⟨[], [⟨"c1", "B", "S", "P", 3, "D", "Pending"⟩]⟩
    (by simp [contractStatusesValid, validStatuses])).2.2.2.1 "c1" (some "Completed")

/-- C7 counterexample: with a record of hash h already stored, an authorized
create whose generated identifier is again h does not produce a handled
conflict outcome (a 409 abort or a retried 201): the commit's uniqueness
violation escapes as an uncaught exception, an unstructured fault. -/
theorem claim7_conflict_counterexample :
    traceability_post ⟨some "t", .responds 200 (some ["CREATE_RECORD"])⟩
      ⟨some "P1", some "F1", some "A1"⟩ "h" 5
      ⟨[⟨"h", "P0", "F0", "A0", 1⟩], []⟩
    = ((.unhandled "UNIQUE constraint failed: traceability_records.traceability_hash",
        ⟨[⟨"h", "P0", "F0", "A0", 1⟩], []⟩), true) := by
  rfl

/-- C7 amended: for both create endpoints, when the generated identifier
already exists the unique-column constraint fires at commit and the
exception propagates unhandled; neither handler regenerates the identifier
nor surfaces a 409. -/
theorem claim7_duplicate_id_unhandled (env : AuthEnv) (pf : Option (List String))
    (called : Bool) (hv : validate_token env = (.claims pf, called)) (s : Store) :
    (∀ body freshHash now, "CREATE_RECORD" ∈ pf.getD [] →
      truthyStr body.product_id = true → truthyStr body.farmer_id = true →
      truthyStr body.aggregation_center_id = true →
      (s.records.any fun x => x.traceability_hash == freshHash) = true →
      traceability_post env body freshHash now s
        = ((.unhandled "UNIQUE constraint failed: traceability_records.traceability_hash",
            s), called))
  ∧ (∀ body freshId, "CREATE_CONTRACT" ∈ pf.getD [] →
      truthyStr body.buyer_id = true → truthyStr body.seller_id = true →
      truthyStr body.product_id = true → truthyNum body.agreed_price = true →
      truthyStr body.delivery_date = true →
      (s.contracts.any fun x => x.contract_id == freshId) = true →
      smart_contract_post env body freshId s
        = ((.unhandled "UNIQUE constraint failed: contracts.contract_id", s), called)) := by
  constructor
  · intro body freshHash now hm hp hf ha hdup
    rw [traceability_post, has_permission_pass hv hm]
    simp [traceability_post_handler, insertRecord, hp, hf, ha, hdup]
  · intro body freshId hm hb hsl hp hpr hd hdup
    rw [smart_contract_post, has_permission_pass hv hm]
    simp [smart_contract_post_handler, insertContract, hb, hsl, hp, hpr, hd, hdup]

/-- Closed witness for the amended C7, at the counterexample's input. -/
theorem claim7_duplicate_id_unhandled_witness :
    traceability_post ⟨some "t", .responds 200 (some ["CREATE_RECORD"])⟩
      ⟨some "P1", some "F1", some "A1"⟩ "h" 5
      ⟨[⟨"h", "P0", "F0", "A0", 1⟩], []⟩
    = ((.unhandled "UNIQUE constraint failed: traceability_records.traceability_hash",
        ⟨[⟨"h", "P0", "F0", "A0", 1⟩], []⟩), true) :=
  (claim7_duplicate_id_unhandled ⟨some "t", .responds 200 (some ["CREATE_RECORD"])⟩
    (some ["CREATE_RECORD"]) true rfl ⟨[⟨"h", "P0", "F0", "A0", 1⟩], []⟩).1
    ⟨some "P1", some "F1", some "A1"⟩ "h" 5 (by decide) rfl rfl rfl (by decide)

/-- C8 counterexample: an authorized create-contract request with
agreed_price −5 — negative, hence truthy — is accepted with 201 and the
contract is persisted with its negative price. -/
theorem claim8_negative_price_counterexample :
    smart_contract_post ⟨some "t", .responds 200 (some ["CREATE_CONTRACT"])⟩
      ⟨some "B", some "S", some "P", some (-5), some "D"⟩ "c1" ⟨[], []⟩
    = ((.response 201 [("contract_id", .str "c1"), ("status", .str "Pending")],
        ⟨[], [⟨"c1", "B", "S", "P", -5, "D", "Pending"⟩]⟩), true)
    ∧ ((-5 : ℚ) < 0) := by
  exact ⟨by rfl, by norm_num⟩

/-- Every stored contract has a nonzero agreed price. -/
def contractPricesNonzero (s : Store) : Prop :=
  ∀ c ∈ s.contracts, c.agreed_price ≠ 0

theorem truthyNum_getD_ne_zero {o : Option ℚ} (h : truthyNum o = true) :
    o.getD 0 ≠ 0 := by
  cases o with
  | none => simp [truthyNum] at h
  | some q => simpa [truthyNum] using h

/-- C8 amended: the create-contract endpoint enforces only truthiness of
agreed_price, so every contract it persists has a nonzero — not necessarily
non-negative — agreed price. -/
theorem claim8_nonzero_price_invariant (env : AuthEnv) (body : ContractPostBody)
    (freshId : String) (s : Store) (hs : contractPricesNonzero s) :
    contractPricesNonzero (smart_contract_post env body freshId s).1.2 := by
  rw [smart_contract_post]
  rcases guarded_store "CREATE_CONTRACT" env s
    (smart_contract_post_handler body freshId) with hc | hc <;> rw [hc]
  · by_cases hcond : (truthyStr body.buyer_id && truthyStr body.seller_id
        && truthyStr body.product_id && truthyNum body.agreed_price
        && truthyStr body.delivery_date) = true
    · by_cases hany : (s.contracts.any fun x => x.contract_id == freshId) = true
      · simpa [smart_contract_post_handler, insertContract, hcond, hany] using hs
      · have hprice : body.agreed_price.getD 0 ≠ 0 := by
          simp only [Bool.and_eq_true] at hcond
          exact truthyNum_getD_ne_zero hcond.1.2
        intro c hcm
        simp [smart_contract_post_handler, insertContract, hcond, hany] at hcm
        rcases hcm with hcm | hcm
        · exact hs c hcm
        · rw [hcm]; exact hprice
    · simpa [smart_contract_post_handler, hcond] using hs
  · exact hs

/-- Closed witness for the amended C8: after creating a contract with price
−5 in an empty store, every stored price is nonzero. -/
theorem claim8_nonzero_price_invariant_witness :
    contractPricesNonzero (smart_contract_post
      ⟨some "t", .responds 200 (some ["CREATE_CONTRACT"])⟩
      ⟨some "B", some "S", some "P", some (-5), some "D"⟩ "c1" ⟨[], []⟩).1.2 :=
  claim8_nonzero_price_invariant ⟨some "t", .responds 200 (some ["CREATE_CONTRACT"])⟩
    ⟨some "B", some "S", some "P", some (-5), some "D"⟩ "c1" ⟨[], []⟩
    (by simp [contractPricesNonzero])

/-- C9: with all three fields truthy, the two payment stubs answer 201 with
their synthesized bodies and return the store identically unchanged — no
record of any kind is created, updated or deleted. -/
theorem claim9_payment_stubs_no_store_effect (env : AuthEnv)
    (pf : Option (List String)) (called : Bool)
    (hv : validate_token env = (.claims pf, called)) (s : Store)
    (body : PaymentBody)
    (hp : truthyStr body.product_id = true)
    (hr : truthyStr body.retailer_id = true)
    (ha : truthyNum body.amount = true) :
    (∀ freshId, "LOCK_PAYMENT" ∈ pf.getD [] →
      lock_payment_post env body freshId s
        = ((.response 201 [("contract_id", .str freshId),
                           ("status", .str "Payment Locked")], s), called))
  ∧ ("RELEASE_PAYMENT" ∈ pf.getD [] →
      release_payment_post env body s
        = ((.response 201 [("status", .str "Payment Released")], s), called)) := by
  constructor
  · intro freshId hm
    rw [lock_payment_post, has_permission_pass hv hm]
    simp [lock_payment_post_handler, hp, hr, ha]
  · intro hm
    rw [release_payment_post, has_permission_pass hv hm]
    simp [release_payment_post_handler, hp, hr, ha]

/-- Closed witness for C9: a lock-payment request leaves a one-record store
exactly as it was. -/
theorem claim9_payment_stubs_no_store_effect_witness :
    lock_payment_post ⟨some "t", .responds 200 (some ["LOCK_PAYMENT"])⟩
      ⟨some "P1", some "R1", some 10⟩ "c9" ⟨[⟨"h", "P0", "F0", "A0", 1⟩], []⟩
    = ((.response 201 [("contract_id", .str "c9"), ("status", .str "Payment Locked")],
        ⟨[⟨"h", "P0", "F0", "A0", 1⟩], []⟩), true) :=
  (claim9_payment_stubs_no_store_effect ⟨some "t", .responds 200 (some ["LOCK_PAYMENT"])⟩
    (some ["LOCK_PAYMENT"]) true rfl ⟨[⟨"h", "P0", "F0", "A0", 1⟩], []⟩
    ⟨some "P1", some "R1", some 10⟩ rfl rfl (by decide)).1 "c9" (by decide)

/-- C10: because the required-field checks test Python truthiness rather
than presence, a create-contract request with agreed_price 0 and a
lock- or release-payment request with amount 0 are all rejected with the
400 Missing-required-fields abort, writing nothing. -/
theorem claim10_zero_amount_rejected (env : AuthEnv) (pf : Option (List String))
    (called : Bool) (hv : validate_token env = (.claims pf, called)) (s : Store) :
    (∀ body : ContractPostBody, ∀ freshId, body.agreed_price = some 0 →
      "CREATE_CONTRACT" ∈ pf.getD [] →
      smart_contract_post env body freshId s
        = ((.abort 400 "Missing required fields", s), called))
  ∧ (∀ body : PaymentBody, ∀ freshId, body.amount = some 0 →
      "LOCK_PAYMENT" ∈ pf.getD [] →
      lock_payment_post env body freshId s
        = ((.abort 400 "Missing required fields", s), called))
  ∧ (∀ body : PaymentBody, body.amount = some 0 →
      "RELEASE_PAYMENT" ∈ pf.getD [] →
      release_payment_post env body s
        = ((.abort 400 "Missing required fields", s), called)) := by
  refine ⟨?_, ?_, ?_⟩
  · intro body freshId hz hm
    rw [smart_contract_post, has_permission_pass hv hm]
    simp [smart_contract_post_handler, hz, truthyNum]
  · intro body freshId hz hm
    rw [lock_payment_post, has_permission_pass hv hm]
    simp [lock_payment_post_handler, hz, truthyNum]
  · intro body hz hm
    rw [release_payment_post, has_permission_pass hv hm]
    simp [release_payment_post_handler, hz, truthyNum]

/-- Closed witness for C10: a fully-authorized create-contract request whose
agreed_price is present but 0 is rejected as missing fields. -/
theorem claim10_zero_amount_rejected_witness :
    smart_contract_post ⟨some "t", .responds 200 (some ["CREATE_CONTRACT"])⟩
      ⟨some "B", some "S", some "P", some 0, some "D"⟩ "c1" ⟨[], []⟩
    = ((.abort 400 "Missing required fields", ⟨[], []⟩), true) :=
  (claim10_zero_amount_rejected ⟨some "t", .responds 200 (some ["CREATE_CONTRACT"])⟩
    (some ["CREATE_CONTRACT"]) true rfl ⟨[], []⟩).1
    ⟨some "B", some "S", some "P", some 0, some "D"⟩ "c1" rfl (by decide)

end FarmChain
